import Mathlib

/-!
Verification of the provider-lifecycle and render-coordination core of
`src/source/filters/filter-denoising.cpp` (obs-StreamFX video-denoising filter).

The embedding models one `denoising_instance` as an explicit state record and
the operations `update`, `switch_provider`, `task_switch_provider`,
`video_tick` and `video_render` as pure state transformers, following the
source line by line.  Concurrency is modelled by interleaving whole
lock-protected critical sections (every modelled operation runs entirely under
the provider lock in the source), so an execution is a list of events applied
in sequence.  GPU/OBS calls are modelled by their observable outcomes:
capture success flags, the upstream size, and the backend behaviour
(`FxEnv`).  C++ exceptions are modelled as `Except`-style outcomes; the
distinction between `std::exception`-derived throws and other throws matters
because `task_switch_provider` catches only the former.
-/

set_option autoImplicit false

namespace Denoising

/-- The `denoising_provider` enum (filter-denoising.hpp / .cpp).  `INVALID` is
"no provider selected", `AUTOMATIC` is the indirect/sentinel value, and
`NVIDIA_DENOISING` is the only concrete backend listed in `provider_priority`
(filter-denoising.cpp line 61).  The build is modelled with
`ENABLE_FILTER_DENOISING_NVIDIA` defined, i.e. the NVIDIA case of every
`switch` statement is present. -/
inductive denoising_provider
  | INVALID
  | AUTOMATIC
  | NVIDIA_DENOISING
  deriving DecidableEq, Repr

/-- Texture handles are opaque identifiers. -/
abbrev Texture := Nat

/-- Behaviour of a loaded `streamfx::nvidia::vfx::denoising` backend object:
`sizeConstrain` models `_nvidia_fx->size(_size)` (the backend may clamp or
align the requested size in place), `process` models
`_nvidia_fx->process(texture)`, which returns a possibly-null texture. -/
structure FxEnv where
  sizeConstrain : Nat × Nat → Nat × Nat
  process : Texture → Option Texture

/-- The payload captured by `switch_provider` for its task
(`struct switch_provider_data_t`, line 380): only the identity being vacated
(`spd->provider = _provider;` at line 408 runs before `_provider = provider;`
at line 409, so this is the OLD identity).  The new identity is not captured. -/
structure switch_provider_data_t where
  provider : denoising_provider
  deriving DecidableEq, Repr

/-- The mutable fields of `denoising_instance` that the modelled operations
read or write.  `nvidia_fx` is the presence of the `_nvidia_fx` backend handle
(`std::shared_ptr` null or not); the behaviour of a loaded handle is the
ambient `FxEnv`.  `provider_task` holds the last enqueued task payload
(`_provider_task`); a task that was popped from the queue before starting is
modelled simply by never running it. -/
structure InstanceState where
  size : Nat × Nat
  provider_ready : Bool
  provider : denoising_provider
  provider_ui : denoising_provider
  provider_task : Option switch_provider_data_t
  dirty : Bool
  nvidia_fx : Bool
  input_tex : Texture
  output : Option Texture
  deriving DecidableEq, Repr

/-- State established by the `denoising_instance` constructor (lines 87-105),
before any `load`/`update` call: size (1,1), not ready, provider INVALID, no
task, no backend, `_output = _input->get_texture()`.  `_dirty` and
`_provider_ui` are not initialised in the constructor's initialiser list (their
defaults live in the header, which is outside `src/`); the theorems below never
depend on these two initial values, and the values chosen here are the benign
defaults (`false`, `INVALID`). -/
def init_state : InstanceState :=
  { size := (1, 1)
    provider_ready := false
    provider := denoising_provider.INVALID
    provider_ui := denoising_provider.INVALID
    provider_task := none
    dirty := false
    nvidia_fx := false
    input_tex := 0
    output := some 0 }

/-- Log lines emitted by the modelled operations, by kind.
`errorSwitchFailed` is the `D_LOG_ERROR` in the task's catch block (line 456);
`errorNoResult` is the per-render `D_LOG_ERROR` at lines 291/361;
`infoSwitched` is the success `D_LOG_INFO` at line 450. -/
inductive LogEntry
  | infoSwitched (fromP toP : denoising_provider)
  | errorSwitchFailed
  | errorNoResult (p : denoising_provider)
  deriving DecidableEq, Repr

/-- Whether a log entry is an error line. -/
def LogEntry.isError : LogEntry → Bool
  | .errorSwitchFailed => true
  | .errorNoResult _ => true
  | _ => false

/-- C++ exception kinds.  The task's catch clause (line 454) is
`catch (std::exception const&)`, so the distinction between a throw derived
from `std::exception` and any other throw is observable. -/
inductive Exc
  | std
  | other
  deriving DecidableEq, Repr

/-- Outcome of `nvvfx_denoising_load` (line 461):
`std::make_shared<nvidia::vfx::denoising>()` either produces a handle or
throws. -/
inductive LoadOutcome
  | ok
  | fail (e : Exc)
  deriving DecidableEq, Repr

/-- `provider_priority` (lines 61-63): the static priority-ordered list of
concrete providers. -/
def provider_priority : List denoising_provider :=
  [denoising_provider.NVIDIA_DENOISING]

/-- `denoising_factory::is_provider_available` (lines 630-640), parameterised
by the `_nvidia_available` flag set once by the factory constructor's
capability probe. -/
def is_provider_available (nvidia_available : Bool) : denoising_provider → Bool
  | denoising_provider.NVIDIA_DENOISING => nvidia_available
  | _ => false

/-- The `for` loop of `find_ideal_provider` (lines 644-649): return the first
element of the list that is available. -/
def find_first (nvidia_available : Bool) : List denoising_provider → denoising_provider
  | [] => denoising_provider.AUTOMATIC
  | v :: rest =>
    if is_provider_available nvidia_available v then v
    else find_first nvidia_available rest

/-- `denoising_factory::find_ideal_provider` (lines 642-651): first available
entry of `provider_priority`, or `AUTOMATIC` when none is available. -/
def find_ideal_provider (nvidia_available : Bool) : denoising_provider :=
  find_first nvidia_available provider_priority

/-- `denoising_instance::switch_provider` (lines 384-414), the part under the
provider lock.  If the requested identity equals the current one it is a
no-op; otherwise the pending task is popped (best effort, modelled by
overwriting `provider_task`), the OLD identity is snapshotted into the task
payload, `_provider` is set to the new identity immediately, and a new task is
enqueued. -/
def switch_provider (s : InstanceState) (provider : denoising_provider) : InstanceState :=
  if provider = s.provider then s
  else
    { s with
      provider := provider
      provider_task := some { provider := s.provider } }

/-- `denoising_instance::update` (lines 129-156).  The requested identity
comes from `obs_data_get_int(data, "Provider")`; `AUTOMATIC` is resolved via
the factory.  When the resolved identity differs from `_provider`, the source
sets `_provider_ui` and calls `switch_provider`.  The trailing
`_provider_ready` branch only forwards the strength setting to a loaded
backend (`nvvfx_denoising_update`, lines 505-512) and touches no modelled
field. -/
def update (nvidia_available : Bool) (data : denoising_provider) (s : InstanceState) :
    InstanceState :=
  let provider :=
    if data = denoising_provider.AUTOMATIC then find_ideal_provider nvidia_available
    else data
  if provider = s.provider then s
  else switch_provider { s with provider_ui := provider } provider

/-- `nvvfx_denoising_unload` (line 466): drop the backend handle. -/
def nvvfx_denoising_unload (s : InstanceState) : InstanceState :=
  { s with nvidia_fx := false }

/-- `nvvfx_denoising_load` (line 461): allocate the backend handle (the
fallible part is the ambient `LoadOutcome`). -/
def nvvfx_denoising_load (s : InstanceState) : InstanceState :=
  { s with nvidia_fx := true }

/-- `nvvfx_denoising_size` (lines 471-478): if no backend handle, do nothing;
otherwise let the backend constrain `_size`.  The second component counts
calls into the backend. -/
def nvvfx_denoising_size (fx : FxEnv) (s : InstanceState) : InstanceState × Nat :=
  if s.nvidia_fx = true then ({ s with size := fx.sizeConstrain s.size }, 1)
  else (s, 0)

/-- `nvvfx_denoising_process` (lines 480-488): if no backend handle, the
source sets `_output = _input->get_texture()` (the unprocessed input texture,
NOT null) and makes no backend call; otherwise `_output` becomes whatever the
backend returns. -/
def nvvfx_denoising_process (fx : FxEnv) (s : InstanceState) : InstanceState × Nat :=
  if s.nvidia_fx = true then ({ s with output := fx.process s.input_tex }, 1)
  else ({ s with output := some s.input_tex }, 0)

/-- `denoising_instance::video_tick` (lines 181-204): store the upstream base
size, let a ready provider constrain it (under the lock), then set
`_dirty = true` unconditionally.  `target` is whether
`obs_filter_get_target(_self)` is non-null; the second component counts
backend calls. -/
def video_tick (fx : FxEnv) (target : Bool) (width height : Nat) (s : InstanceState) :
    InstanceState × Nat :=
  let s1 : InstanceState := { s with size := (width, height) }
  let p :=
    if target = true ∧ s1.provider_ready = true then
      match s1.provider with
      | denoising_provider.NVIDIA_DENOISING => nvvfx_denoising_size fx s1
      | _ => (s1, 0)
    else (s1, 0)
  ({ p.1 with dirty := true }, p.2)

/-- Observable inputs of one `video_render` call: whether
`obs_filter_get_target(_self)` and `obs_filter_get_parent(_self)` are
non-null, the upstream base width/height, and whether each of the two
`obs_source_process_filter_begin` captures succeeds. -/
structure RenderEnv where
  target : Bool
  parent : Bool
  width : Nat
  height : Nat
  capture1 : Bool
  capture2 : Bool
  deriving DecidableEq, Repr

/-- What one `video_render` call produces downstream: either a skip
(`obs_source_skip_video_filter`, the pass-through) or a drawn output texture
at the stored size. -/
inductive RenderResult
  | skip
  | drawn (tex : Option Texture) (w h : Nat)
  deriving DecidableEq, Repr

/-- Result of one `video_render` call: the post state, the downstream result,
the number of calls into the backend (`_nvidia_fx->size` / `->process`), and
the log lines emitted. -/
structure RenderOut where
  state : InstanceState
  result : RenderResult
  provider_calls : Nat
  logs : List LogEntry
  deriving DecidableEq, Repr

/-- The size-restriction switch at the top of the first dirty block
(lines 236-247): the NVIDIA case calls `nvvfx_denoising_size`, the default
case sets `_size = {width, height}`. -/
def render_phase_size (fx : FxEnv) (width height : Nat) (s : InstanceState) :
    InstanceState × Nat :=
  match s.provider with
  | denoising_provider.NVIDIA_DENOISING => nvvfx_denoising_size fx s
  | _ => ({ s with size := (width, height) }, 0)

/-- The process switch (lines 279-288 and 345-354): the NVIDIA case calls
`nvvfx_denoising_process`, the default case nulls `_output`. -/
def render_phase_process (fx : FxEnv) (s : InstanceState) : InstanceState × Nat :=
  match s.provider with
  | denoising_provider.NVIDIA_DENOISING => nvvfx_denoising_process fx s
  | _ => ({ s with output := none }, 0)

/-- Continuation of `video_render` after the second dirty block's capture
(lines 341-367): process again; if `_output` is null, log and skip; otherwise
clear `_dirty` and draw `_output` at `_size`. -/
def render_after_capture2 (c12 : Nat) (p3 : InstanceState × Nat) : RenderOut :=
  if p3.1.output = none then
    { state := p3.1, result := RenderResult.skip, provider_calls := c12 + p3.2
      logs := [LogEntry.errorNoResult p3.1.provider] }
  else
    { state := { p3.1 with dirty := false }
      result := RenderResult.drawn p3.1.output p3.1.size.1 p3.1.size.2
      provider_calls := c12 + p3.2
      logs := [] }

/-- Continuation of `video_render` after the first dirty block's capture
succeeded (lines 277-298 then 300-367): process; if `_output` is null, log the
error and skip (lines 290-294); otherwise enter the second dirty block, whose
capture may fail (line 335, silent skip). -/
def render_after_capture1 (fx : FxEnv) (env : RenderEnv) (c1 : Nat)
    (p2 : InstanceState × Nat) : RenderOut :=
  if p2.1.output = none then
    { state := p2.1, result := RenderResult.skip, provider_calls := c1 + p2.2
      logs := [LogEntry.errorNoResult p2.1.provider] }
  else if env.capture2 = true then
    render_after_capture2 (c1 + p2.2) (render_phase_process fx p2.1)
  else
    { state := p2.1, result := RenderResult.skip, provider_calls := c1 + p2.2, logs := [] }

/-- The dirty path of `video_render` (lines 233-367): size restriction, first
capture (silent skip on failure, line 272), then `render_after_capture1`. -/
def render_dirty_cycle (fx : FxEnv) (env : RenderEnv) (p1 : InstanceState × Nat) :
    RenderOut :=
  if env.capture1 = true then
    render_after_capture1 fx env p1.2 (render_phase_process fx p1.1)
  else
    { state := p1.1, result := RenderResult.skip, provider_calls := p1.2, logs := [] }

/-- `denoising_instance::video_render` (lines 206-378).  The guard (line 222)
skips when the provider is not ready, there is neither a target nor a parent
(`target = target ? target : parent`, line 215), or the upstream base size is
zero in either dimension.  When `_dirty` is false the stored `_output` is
drawn directly at `_size` (lines 369-377). -/
def video_render (fx : FxEnv) (env : RenderEnv) (s : InstanceState) : RenderOut :=
  if s.provider_ready = false ∨ (env.target = false ∧ env.parent = false) ∨
      env.width = 0 ∨ env.height = 0 then
    { state := s, result := RenderResult.skip, provider_calls := 0, logs := [] }
  else if s.dirty = true then
    render_dirty_cycle fx env (render_phase_size fx env.width env.height s)
  else
    { state := s, result := RenderResult.drawn s.output s.size.1 s.size.2
      provider_calls := 0, logs := [] }

/-- Result of one `task_switch_provider` execution: the post state, the
identity whose load `switch` branch actually executed, the exception (if any)
that escaped the task body, and the log lines emitted. -/
structure TaskResult where
  state : InstanceState
  loaded : denoising_provider
  escaped : Option Exc
  logs : List LogEntry
  deriving DecidableEq, Repr

/-- `denoising_instance::task_switch_provider` (lines 416-458).  Step 1 clears
`_provider_ready`; under the lock, the OLD identity from the captured payload
is unloaded (line 428 switches on `spd->provider`), then the load `switch`
(line 439) branches on the CURRENT `_provider` — not on any captured identity.
On success `_provider_ready` is set `true` unconditionally; there is no
staleness re-check.  Only `std::exception`-derived throws are caught
(line 454); any other throw escapes the task body. -/
def task_switch_provider (load : LoadOutcome) (s : InstanceState)
    (spd : switch_provider_data_t) : TaskResult :=
  let s2 : InstanceState :=
    if spd.provider = denoising_provider.NVIDIA_DENOISING then
      nvvfx_denoising_unload { s with provider_ready := false }
    else { s with provider_ready := false }
  if s2.provider = denoising_provider.NVIDIA_DENOISING then
    match load with
    | LoadOutcome.ok =>
      { state := { nvvfx_denoising_load s2 with provider_ready := true }
        loaded := s2.provider
        escaped := none
        logs := [LogEntry.infoSwitched spd.provider s2.provider] }
    | LoadOutcome.fail Exc.std =>
      { state := s2, loaded := s2.provider, escaped := none
        logs := [LogEntry.errorSwitchFailed] }
    | LoadOutcome.fail Exc.other =>
      { state := s2, loaded := s2.provider, escaped := some Exc.other, logs := [] }
  else
    { state := { s2 with provider_ready := true }
      loaded := s2.provider
      escaped := none
      logs := [LogEntry.infoSwitched spd.provider s2.provider] }

/-- Whether the provider process step can produce no output for this state:
either the active provider is not the NVIDIA backend (default branch nulls
`_output`), or the backend handle is present and its `process` returns null on
the input texture.  (With the NVIDIA provider active but no handle loaded, the
process step yields the input texture — see `nvvfx_denoising_process`.) -/
def process_yields_none (fx : FxEnv) (s : InstanceState) : Bool :=
  match s.provider with
  | denoising_provider.NVIDIA_DENOISING =>
    s.nvidia_fx && decide (fx.process s.input_tex = none)
  | _ => true

/-- Events of the per-instance state machine.  `updateE` is an `update` call
with the provider identity read from the settings; `taskE` is the execution of
a switch task with the payload its `switch_provider` built and the load
outcome of that execution.  All four operations run under the provider lock in
the source, so interleavings are sequences of whole events. -/
inductive Event
  | updateE (data : denoising_provider)
  | tickE (target : Bool) (width height : Nat)
  | renderE (env : RenderEnv)
  | taskE (spd : switch_provider_data_t) (load : LoadOutcome)

/-- One step of the per-instance machine. -/
def step (nvidia_available : Bool) (fx : FxEnv) (s : InstanceState) : Event → InstanceState
  | Event.updateE d => update nvidia_available d s
  | Event.tickE t w h => (video_tick fx t w h s).1
  | Event.renderE env => (video_render fx env s).state
  | Event.taskE spd load => (task_switch_provider load s spd).state

/-- Run a sequence of events. -/
def run (nvidia_available : Bool) (fx : FxEnv) (s : InstanceState) :
    List Event → InstanceState
  | [] => s
  | e :: es => run nvidia_available fx (step nvidia_available fx s e) es

/-- Events relevant to the last-write-wins property of `_provider`: direct
`switch_provider` calls and switch-task executions. -/
inductive SwEvent
  | call (p : denoising_provider)
  | task (spd : switch_provider_data_t) (load : LoadOutcome)

/-- Whether a `SwEvent` is a task execution. -/
def SwEvent.isTask : SwEvent → Bool
  | SwEvent.task _ _ => true
  | _ => false

/-- One step of the switch/task machine. -/
def sw_step (s : InstanceState) : SwEvent → InstanceState
  | SwEvent.call p => switch_provider s p
  | SwEvent.task spd load => (task_switch_provider load s spd).state

/-- Run a sequence of switch/task events. -/
def sw_run (s : InstanceState) : List SwEvent → InstanceState
  | [] => s
  | e :: es => sw_run (sw_step s e) es

/-- State of the process-wide factory handle
`_video_denoising_factory_instance` (line 653): `none` is the null
`shared_ptr`, `some f` an instance identified by `f`. -/
abbrev FactoryState := Option Nat

/-- The global before any call: `= nullptr` (line 653). -/
def factory_initial : FactoryState := none

/-- Outcome of `std::make_shared<denoising_factory>()` inside
`denoising_factory::initialize`: a new instance or a throw. -/
inductive CtorOutcome
  | ok (f : Nat)
  | fail (e : Exc)
  deriving DecidableEq, Repr

/-- `denoising_factory::initialize` (lines 655-663): construct the singleton
only when the handle is null; constructor throws are caught and logged,
leaving the handle null. -/
def initialize_factory (ctor : CtorOutcome) (s : FactoryState) : FactoryState :=
  match s with
  | some f => some f
  | none =>
    match ctor with
    | CtorOutcome.ok f => some f
    | CtorOutcome.fail _ => none

/-- `denoising_factory::finalize` (lines 665-668): reset the handle. -/
def finalize_factory (_ : FactoryState) : FactoryState := none

/-- `denoising_factory::get` (lines 670-673): return the handle. -/
def get_factory (s : FactoryState) : FactoryState := s

/-- A concrete backend behaviour whose `process` always returns null. -/
def fx_none : FxEnv :=
  { sizeConstrain := fun p => p, process := fun _ => none }

/-- A concrete backend behaviour whose `process` returns the input texture. -/
def fx_id : FxEnv :=
  { sizeConstrain := fun p => p, process := fun t => some t }

/-! Field-preservation lemmas -/

theorem switch_provider_sets (s : InstanceState) (p : denoising_provider) :
    (switch_provider s p).provider = p := by
  unfold switch_provider
  split
  · rename_i h
    exact h.symm
  · rfl

theorem switch_provider_dirty (s : InstanceState) (p : denoising_provider) :
    (switch_provider s p).dirty = s.dirty := by
  unfold switch_provider
  split <;> rfl

theorem task_state_provider (load : LoadOutcome) (s : InstanceState)
    (spd : switch_provider_data_t) :
    (task_switch_provider load s spd).state.provider = s.provider := by
  unfold task_switch_provider nvvfx_denoising_unload nvvfx_denoising_load
  dsimp only
  rcases load with _ | e
  · split <;> split <;> rfl
  · cases e <;> (split <;> split <;> rfl)

theorem task_state_dirty (load : LoadOutcome) (s : InstanceState)
    (spd : switch_provider_data_t) :
    (task_switch_provider load s spd).state.dirty = s.dirty := by
  unfold task_switch_provider nvvfx_denoising_unload nvvfx_denoising_load
  dsimp only
  rcases load with _ | e
  · split <;> split <;> rfl
  · cases e <;> (split <;> split <;> rfl)

theorem video_tick_provider (fx : FxEnv) (t : Bool) (w h : Nat) (s : InstanceState) :
    (video_tick fx t w h s).1.provider = s.provider := by
  unfold video_tick nvvfx_denoising_size
  dsimp only
  split <;> (try split) <;> (try split) <;> rfl

theorem video_tick_dirty (fx : FxEnv) (t : Bool) (w h : Nat) (s : InstanceState) :
    (video_tick fx t w h s).1.dirty = true := rfl

theorem render_phase_size_fields (fx : FxEnv) (w h : Nat) (s : InstanceState) :
    (render_phase_size fx w h s).1.provider = s.provider ∧
    (render_phase_size fx w h s).1.dirty = s.dirty ∧
    (render_phase_size fx w h s).1.nvidia_fx = s.nvidia_fx ∧
    (render_phase_size fx w h s).1.input_tex = s.input_tex ∧
    (render_phase_size fx w h s).1.provider_ready = s.provider_ready := by
  unfold render_phase_size nvvfx_denoising_size
  split <;> (try split) <;> exact ⟨rfl, rfl, rfl, rfl, rfl⟩

theorem render_phase_process_fields (fx : FxEnv) (s : InstanceState) :
    (render_phase_process fx s).1.provider = s.provider ∧
    (render_phase_process fx s).1.dirty = s.dirty := by
  unfold render_phase_process nvvfx_denoising_process
  split <;> (try split) <;> exact ⟨rfl, rfl⟩

theorem render_after_capture2_provider (c : Nat) (p3 : InstanceState × Nat) :
    (render_after_capture2 c p3).state.provider = p3.1.provider := by
  unfold render_after_capture2
  split <;> rfl

theorem render_after_capture1_provider (fx : FxEnv) (env : RenderEnv) (c : Nat)
    (p2 : InstanceState × Nat) :
    (render_after_capture1 fx env c p2).state.provider = p2.1.provider := by
  unfold render_after_capture1
  split
  · rfl
  split
  · rw [render_after_capture2_provider]
    exact (render_phase_process_fields fx p2.1).1
  · rfl

theorem video_render_provider (fx : FxEnv) (env : RenderEnv) (s : InstanceState) :
    (video_render fx env s).state.provider = s.provider := by
  unfold video_render render_dirty_cycle
  split
  · rfl
  split
  · split
    · rw [render_after_capture1_provider]
      exact (render_phase_process_fields fx _).1 |>.trans (render_phase_size_fields fx env.width env.height s).1
    · exact (render_phase_size_fields fx env.width env.height s).1
  · rfl

/-! Claim C1 -/

/-- Claim C1, evaluated at the failing input.  After `switch_provider
NVIDIA_DENOISING` followed by `switch_provider INVALID` on a fresh instance,
the first call's task (whose payload captured only the old identity, INVALID)
runs: its load step executes the `switch` branch of the CURRENT `_provider`
(INVALID, i.e. the second call's target) rather than its own submission-time
target NVIDIA_DENOISING, and it sets `provider_ready = true` without any
staleness re-check.  The claim instead requires loading the captured
new-provider identity and re-checking it against `active_provider` before
flipping `provider_ready`, discarding the stale result otherwise. -/
theorem c1_stale_task_loads_current_not_captured :
    (task_switch_provider LoadOutcome.ok
        (switch_provider (switch_provider init_state denoising_provider.NVIDIA_DENOISING)
          denoising_provider.INVALID)
        { provider := denoising_provider.INVALID }).loaded = denoising_provider.INVALID
    ∧ (task_switch_provider LoadOutcome.ok
        (switch_provider (switch_provider init_state denoising_provider.NVIDIA_DENOISING)
          denoising_provider.INVALID)
        { provider := denoising_provider.INVALID }).loaded
        ≠ denoising_provider.NVIDIA_DENOISING
    ∧ (task_switch_provider LoadOutcome.ok
        (switch_provider (switch_provider init_state denoising_provider.NVIDIA_DENOISING)
          denoising_provider.INVALID)
        { provider := denoising_provider.INVALID }).state.provider_ready = true := by
  decide

/-! Claim C7 -/

/-- Claim C7, counterexample to "no exception escapes the task body": the
task's catch clause (line 454) covers only `std::exception`; a load failure of
any other kind propagates out of `task_switch_provider`. -/
theorem c7_counterexample :
    (task_switch_provider (LoadOutcome.fail Exc.other)
        { init_state with provider := denoising_provider.NVIDIA_DENOISING }
        { provider := denoising_provider.INVALID }).escaped = some Exc.other := by
  decide

/-- Claim C7 as amended: for every switch-task execution whose load step
fails, `provider_ready` is left false and `active_provider` is unchanged by
the task; when the failure is a `std::exception`, it is logged and nothing
escapes the task body; when the failure is not derived from `std::exception`,
it escapes the task body (this last point is where the original claim fails). -/
theorem c7_task_failure_containment :
    ∀ (e : Exc) (s : InstanceState) (spd : switch_provider_data_t),
      s.provider = denoising_provider.NVIDIA_DENOISING →
      (task_switch_provider (LoadOutcome.fail e) s spd).state.provider_ready = false
      ∧ (task_switch_provider (LoadOutcome.fail e) s spd).state.provider = s.provider
      ∧ (e = Exc.std →
          (task_switch_provider (LoadOutcome.fail e) s spd).escaped = none
          ∧ (task_switch_provider (LoadOutcome.fail e) s spd).logs
              = [LogEntry.errorSwitchFailed])
      ∧ (e = Exc.other →
          (task_switch_provider (LoadOutcome.fail e) s spd).escaped = some Exc.other) := by
  intro e s spd h
  unfold task_switch_provider nvvfx_denoising_unload
  dsimp only
  cases e <;> split <;> simp_all

/-- Witness for C7's amended theorem at a concrete input. -/
theorem c7_task_failure_containment_witness :
    (task_switch_provider (LoadOutcome.fail Exc.std)
        { init_state with provider := denoising_provider.NVIDIA_DENOISING }
        { provider := denoising_provider.INVALID }).state.provider_ready = false :=
  (c7_task_failure_containment Exc.std
      { init_state with provider := denoising_provider.NVIDIA_DENOISING }
      { provider := denoising_provider.INVALID } rfl).1

/-! Claim C8 -/

/-- Claim C8, counterexample: with the NVIDIA provider active but the backend
handle absent (never loaded or already unloaded), `nvvfx_denoising_process`
does NOT produce "no output" — it stores the unprocessed input texture
(`_output = _input->get_texture()`, line 483), a non-null result, so the
render path's null-check is not what handles this case. -/
theorem c8_counterexample :
    ¬ ((nvvfx_denoising_process fx_id
          { init_state with provider := denoising_provider.NVIDIA_DENOISING
                            input_tex := 7 }).1.output = none) := by
  decide

/-- Claim C8 as amended: when the backend handle is absent, the process
operation does not raise (it is total) and makes zero backend calls, but it
yields the unprocessed input texture — a non-null pass-through result — rather
than a null/absent result. -/
theorem c8_process_without_backend_passthrough :
    ∀ (fx : FxEnv) (s : InstanceState), s.nvidia_fx = false →
      (nvvfx_denoising_process fx s).1.output = some s.input_tex
      ∧ (nvvfx_denoising_process fx s).2 = 0 := by
  intro fx s h
  simp [nvvfx_denoising_process, h]

/-- Witness for C8's amended theorem at a concrete input. -/
theorem c8_process_without_backend_passthrough_witness :
    (nvvfx_denoising_process fx_id init_state).1.output = some init_state.input_tex
    ∧ (nvvfx_denoising_process fx_id init_state).2 = 0 :=
  c8_process_without_backend_passthrough fx_id init_state rfl

/-! Claim C9 -/

/-- Claim C9: `find_ideal_provider` returns the first identity of the static
priority list whose availability flag is true (the `List.find?`
characterisation), returns `AUTOMATIC` when no listed identity is available,
and never returns an identity whose availability flag is false. -/
theorem c9_find_ideal_provider_first_available :
    ∀ nvidia_available : Bool,
      find_ideal_provider nvidia_available =
        (provider_priority.find? (fun v => is_provider_available nvidia_available v)).getD
          denoising_provider.AUTOMATIC
      ∧ ((∀ p ∈ provider_priority, is_provider_available nvidia_available p = false) →
          find_ideal_provider nvidia_available = denoising_provider.AUTOMATIC)
      ∧ (find_ideal_provider nvidia_available ≠ denoising_provider.AUTOMATIC →
          is_provider_available nvidia_available (find_ideal_provider nvidia_available)
            = true) := by
  intro nvidia_available
  cases nvidia_available <;> exact ⟨by decide, by decide, by decide⟩

/-- Witness for C9 at concrete inputs: no provider available gives the
`AUTOMATIC` sentinel; with the probe succeeded, the returned identity is
available. -/
theorem c9_find_ideal_provider_first_available_witness :
    find_ideal_provider false = denoising_provider.AUTOMATIC
    ∧ is_provider_available true (find_ideal_provider true) = true :=
  ⟨(c9_find_ideal_provider_first_available false).2.1 (by decide),
   (c9_find_ideal_provider_first_available true).2.2 (by decide)⟩

/-! Claim C10 -/

/-- Claim C10: the process-wide factory handle is null before the first
`initialize` and after `finalize`, and `initialize` is idempotent: a second
call while an instance exists leaves that same instance in place, so `get`
returns the same handle before and after the repeated call. -/
theorem c10_factory_lifecycle :
    get_factory factory_initial = none
    ∧ (∀ s : FactoryState, get_factory (finalize_factory s) = none)
    ∧ (∀ (ctor : CtorOutcome) (f : Nat),
        initialize_factory ctor (some f) = some f
        ∧ get_factory (initialize_factory ctor (some f)) = get_factory (some f)) :=
  ⟨rfl, fun _ => rfl, fun _ _ => ⟨rfl, rfl⟩⟩

/-! Claim C2 -/

theorem sw_run_append (s : InstanceState) (l1 l2 : List SwEvent) :
    sw_run s (l1 ++ l2) = sw_run (sw_run s l1) l2 := by
  induction l1 generalizing s with
  | nil => rfl
  | cons e es ih => simpa [sw_run] using ih (sw_step s e)

theorem sw_run_tasks_provider :
    ∀ (post : List SwEvent) (s : InstanceState),
      (∀ e ∈ post, e.isTask = true) → (sw_run s post).provider = s.provider := by
  intro post
  induction post with
  | nil => intro s _; rfl
  | cons e es ih =>
    intro s h
    cases e with
    | call p =>
      have hc := h (SwEvent.call p) (List.mem_cons_self _ _)
      simp [SwEvent.isTask] at hc
    | task spd load =>
      have h2 : ∀ x ∈ es, SwEvent.isTask x = true :=
        fun x hx => h x (List.mem_cons_of_mem _ hx)
      exact (ih ((task_switch_provider load s spd).state) h2).trans
        (task_state_provider load s spd)

/-- Claim C2: for any prefix of switch/task events followed by a
`switch_provider p` call and then only task executions (in any order, with any
load outcomes), the final `active_provider` equals `p` — last write wins,
because `switch_provider` writes `_provider` synchronously under the lock and
the task body never writes `_provider`. -/
theorem c2_last_switch_wins :
    (∀ (s : InstanceState) (pre : List SwEvent) (p : denoising_provider)
        (post : List SwEvent),
      (∀ e ∈ post, e.isTask = true) →
      (sw_run s (pre ++ SwEvent.call p :: post)).provider = p)
    ∧ (∀ (load : LoadOutcome) (s : InstanceState) (spd : switch_provider_data_t),
        (task_switch_provider load s spd).state.provider = s.provider) := by
  constructor
  · intro s pre p post h
    rw [sw_run_append]
    exact (sw_run_tasks_provider post (switch_provider (sw_run s pre) p) h).trans
      (switch_provider_sets _ p)
  · exact task_state_provider

/-- Witness for C2 at a concrete input: calls NVIDIA then INVALID, with the
first call's (stale) task running afterwards; the final provider is INVALID,
the last call's identity. -/
theorem c2_last_switch_wins_witness :
    (sw_run init_state
        ([SwEvent.call denoising_provider.NVIDIA_DENOISING] ++
          SwEvent.call denoising_provider.INVALID ::
            [SwEvent.task { provider := denoising_provider.NVIDIA_DENOISING }
              LoadOutcome.ok])).provider = denoising_provider.INVALID :=
  c2_last_switch_wins.1 init_state [SwEvent.call denoising_provider.NVIDIA_DENOISING]
    denoising_provider.INVALID
    [SwEvent.task { provider := denoising_provider.NVIDIA_DENOISING } LoadOutcome.ok]
    (by decide)

/-! Claim C3 -/

/-- Claim C3, counterexample: with no provider available, one `update` call
requesting `Automatic` resolves to the `AUTOMATIC` sentinel
(`find_ideal_provider` returns it) and `update` stores it straight into
`active_provider` via `switch_provider` — so `active_provider` CAN be
`Automatic` in a reachable instance state. -/
theorem c3_counterexample :
    (run false fx_id init_state [Event.updateE denoising_provider.AUTOMATIC]).provider
      = denoising_provider.AUTOMATIC := by
  decide

theorem step_preserves_not_auto (fx : FxEnv) (e : Event) (s : InstanceState)
    (h : s.provider ≠ denoising_provider.AUTOMATIC) :
    (step true fx s e).provider ≠ denoising_provider.AUTOMATIC := by
  cases e with
  | updateE d =>
    show (update true d s).provider ≠ denoising_provider.AUTOMATIC
    unfold update
    dsimp only
    split
    · split
      · exact h
      · rw [switch_provider_sets]
        decide
    · rename_i hd
      split
      · exact h
      · rw [switch_provider_sets]
        exact hd
  | tickE t w hh =>
    show (video_tick fx t w hh s).1.provider ≠ denoising_provider.AUTOMATIC
    rw [video_tick_provider]
    exact h
  | renderE env =>
    show (video_render fx env s).state.provider ≠ denoising_provider.AUTOMATIC
    rw [video_render_provider]
    exact h
  | taskE spd load =>
    show (task_switch_provider load s spd).state.provider ≠ denoising_provider.AUTOMATIC
    rw [task_state_provider]
    exact h

theorem run_preserves_not_auto (fx : FxEnv) :
    ∀ (events : List Event) (s : InstanceState),
      s.provider ≠ denoising_provider.AUTOMATIC →
      (run true fx s events).provider ≠ denoising_provider.AUTOMATIC := by
  intro events
  induction events with
  | nil => intro s h; exact h
  | cons e es ih => intro s h; exact ih _ (step_preserves_not_auto fx e s h)

/-- Claim C3 as amended: in every reachable state of an instance on a machine
where the capability probe succeeded (some provider available), the
`active_provider` is a concrete identity or `Invalid`, never `Automatic`;
the unamended claim fails only in the zero-availability case shown in the
counterexample, where the `AUTOMATIC` sentinel itself is stored as active. -/
theorem c3_active_provider_never_automatic_when_available :
    ∀ (fx : FxEnv) (events : List Event),
      (run true fx init_state events).provider = denoising_provider.INVALID
      ∨ (run true fx init_state events).provider = denoising_provider.NVIDIA_DENOISING := by
  intro fx events
  have h := run_preserves_not_auto fx events init_state (by decide)
  cases hp : (run true fx init_state events).provider with
  | INVALID => exact Or.inl rfl
  | AUTOMATIC => exact absurd hp h
  | NVIDIA_DENOISING => exact Or.inr rfl

/-! Claim C4 -/

/-- Claim C4: whenever the provider is not ready, or there is no upstream
target, or the upstream base width or height is zero, `video_render` emits a
skip, makes zero backend calls, and leaves the state unchanged — in
particular the provider's `process` is never invoked while
`provider_ready = false`.  The side condition models OBS:
`obs_source_get_base_width(nullptr) = 0`, so a missing target always reports
width zero. -/
theorem c4_render_guard_skips :
    ∀ (fx : FxEnv) (env : RenderEnv) (s : InstanceState),
      (env.target = false → env.width = 0) →
      (s.provider_ready = false ∨ env.target = false ∨ env.width = 0 ∨ env.height = 0) →
      (video_render fx env s).result = RenderResult.skip
      ∧ (video_render fx env s).provider_calls = 0
      ∧ (video_render fx env s).state = s := by
  intro fx env s hobs h
  have hc : s.provider_ready = false ∨ (env.target = false ∧ env.parent = false) ∨
      env.width = 0 ∨ env.height = 0 := by
    rcases h with h | h | h | h
    · exact Or.inl h
    · exact Or.inr (Or.inr (Or.inl (hobs h)))
    · exact Or.inr (Or.inr (Or.inl h))
    · exact Or.inr (Or.inr (Or.inr h))
  unfold video_render
  rw [if_pos hc]
  exact ⟨rfl, rfl, rfl⟩

/-- Witness for C4 at a concrete input: a fresh instance (`provider_ready`
false) with a present target of size 4x3 renders as a skip with zero backend
calls and an unchanged state. -/
theorem c4_render_guard_skips_witness :
    (video_render fx_id
        { target := true, parent := true, width := 4, height := 3,
          capture1 := true, capture2 := true } init_state).result = RenderResult.skip
    ∧ (video_render fx_id
        { target := true, parent := true, width := 4, height := 3,
          capture1 := true, capture2 := true } init_state).provider_calls = 0
    ∧ (video_render fx_id
        { target := true, parent := true, width := 4, height := 3,
          capture1 := true, capture2 := true } init_state).state = init_state :=
  c4_render_guard_skips fx_id
    { target := true, parent := true, width := 4, height := 3,
      capture1 := true, capture2 := true } init_state
    (by decide) (Or.inl rfl)

/-! Claim C5 -/

theorem update_dirty (nvidia_available : Bool) (d : denoising_provider)
    (s : InstanceState) : (update nvidia_available d s).dirty = s.dirty := by
  unfold update
  dsimp only
  split <;> split <;> first | rfl | rw [switch_provider_dirty]

theorem render_after_capture2_cases (c : Nat) (p3 : InstanceState × Nat) :
    ((render_after_capture2 c p3).state = p3.1
      ∧ (render_after_capture2 c p3).result = RenderResult.skip)
    ∨ ((render_after_capture2 c p3).state = { p3.1 with dirty := false }
      ∧ p3.1.output ≠ none
      ∧ (render_after_capture2 c p3).result
          = RenderResult.drawn p3.1.output p3.1.size.1 p3.1.size.2) := by
  unfold render_after_capture2
  split
  · exact Or.inl ⟨rfl, rfl⟩
  · rename_i hout
    exact Or.inr ⟨rfl, hout, rfl⟩

theorem render_after_capture1_cases (fx : FxEnv) (env : RenderEnv) (c : Nat)
    (p2 : InstanceState × Nat) :
    ((render_after_capture1 fx env c p2).state.dirty = p2.1.dirty
      ∧ (render_after_capture1 fx env c p2).result = RenderResult.skip)
    ∨ (env.capture2 = true
      ∧ (render_after_capture1 fx env c p2).state.dirty = false
      ∧ (render_after_capture1 fx env c p2).state.output ≠ none
      ∧ (render_after_capture1 fx env c p2).result ≠ RenderResult.skip) := by
  unfold render_after_capture1
  split
  · exact Or.inl ⟨rfl, rfl⟩
  · split
    · rename_i hout hc2
      rcases render_after_capture2_cases (c + p2.2) (render_phase_process fx p2.1) with
        ⟨hs, hr⟩ | ⟨hs, ho, hr⟩
      · refine Or.inl ⟨?_, hr⟩
        rw [hs]
        exact (render_phase_process_fields fx p2.1).2
      · refine Or.inr ⟨hc2, ?_, ?_, ?_⟩
        · rw [hs]
        · rw [hs]
          exact ho
        · rw [hr]
          simp
    · exact Or.inl ⟨rfl, rfl⟩

theorem render_dirty_cycle_cases (fx : FxEnv) (env : RenderEnv)
    (p1 : InstanceState × Nat) :
    ((render_dirty_cycle fx env p1).state.dirty = p1.1.dirty
      ∧ (render_dirty_cycle fx env p1).result = RenderResult.skip)
    ∨ (env.capture1 = true ∧ env.capture2 = true
      ∧ (render_dirty_cycle fx env p1).state.dirty = false
      ∧ (render_dirty_cycle fx env p1).state.output ≠ none
      ∧ (render_dirty_cycle fx env p1).result ≠ RenderResult.skip) := by
  unfold render_dirty_cycle
  split
  · rename_i hc1
    rcases render_after_capture1_cases fx env p1.2 (render_phase_process fx p1.1) with
      ⟨hs, hr⟩ | ⟨hc2, hs, ho, hr⟩
    · refine Or.inl ⟨?_, hr⟩
      rw [hs]
      exact (render_phase_process_fields fx p1.1).2
    · exact Or.inr ⟨hc1, hc2, hs, ho, hr⟩
  · exact Or.inl ⟨rfl, rfl⟩

theorem video_render_dirty_cases (fx : FxEnv) (env : RenderEnv) (s : InstanceState) :
    (video_render fx env s).state.dirty = s.dirty
    ∨ (env.capture1 = true ∧ env.capture2 = true
      ∧ (video_render fx env s).state.dirty = false
      ∧ (video_render fx env s).state.output ≠ none
      ∧ (video_render fx env s).result ≠ RenderResult.skip) := by
  unfold video_render
  split
  · exact Or.inl rfl
  · split
    · rcases render_dirty_cycle_cases fx env
          (render_phase_size fx env.width env.height s) with ⟨hs, _⟩ | h
      · refine Or.inl ?_
        rw [hs]
        exact (render_phase_size_fields fx env.width env.height s).2.1
      · exact Or.inr h
    · exact Or.inl rfl

theorem process_yields_none_output (fx : FxEnv) (s : InstanceState)
    (h : process_yields_none fx s = true) :
    (render_phase_process fx s).1.output = none := by
  unfold process_yields_none at h
  unfold render_phase_process nvvfx_denoising_process
  cases hp : s.provider with
  | NVIDIA_DENOISING =>
    rw [hp] at h
    dsimp only at h
    simp only [Bool.and_eq_true, decide_eq_true_eq] at h
    simp [h.1, h.2]
  | INVALID => rfl
  | AUTOMATIC => rfl

theorem process_yields_none_size (fx : FxEnv) (w h : Nat) (s : InstanceState)
    (hy : process_yields_none fx s = true) :
    process_yields_none fx (render_phase_size fx w h s).1 = true := by
  obtain ⟨h1, _, h3, h4, _⟩ := render_phase_size_fields fx w h s
  unfold process_yields_none at hy ⊢
  rw [h1, h3, h4]
  exact hy

theorem render_yields_none_skip (fx : FxEnv) (env : RenderEnv) (s : InstanceState)
    (hd : s.dirty = true) (hy : process_yields_none fx s = true) :
    (video_render fx env s).result = RenderResult.skip
    ∧ (video_render fx env s).state.dirty = true := by
  have ho : (render_phase_process fx
      (render_phase_size fx env.width env.height s).1).1.output = none :=
    process_yields_none_output fx _ (process_yields_none_size fx env.width env.height s hy)
  unfold video_render
  by_cases hg : s.provider_ready = false ∨ (env.target = false ∧ env.parent = false) ∨
      env.width = 0 ∨ env.height = 0
  · rw [if_pos hg]
    exact ⟨rfl, hd⟩
  · rw [if_neg hg, if_pos hd]
    unfold render_dirty_cycle
    by_cases hc1 : env.capture1 = true
    · rw [if_pos hc1]
      unfold render_after_capture1
      rw [if_pos ho]
      refine ⟨rfl, ?_⟩
      show (render_phase_process fx (render_phase_size fx env.width env.height s).1).1.dirty
          = true
      rw [(render_phase_process_fields fx _).2,
        (render_phase_size_fields fx env.width env.height s).2.1]
      exact hd
    · rw [if_neg hc1]
      refine ⟨rfl, ?_⟩
      show (render_phase_size fx env.width env.height s).1.dirty = true
      rw [(render_phase_size_fields fx env.width env.height s).2.1]
      exact hd

/-- Claim C5: `video_tick` sets `dirty` unconditionally on every tick;
`update`, `switch_provider` and the switch task never change `dirty`; the only
transition that clears `dirty` is a `video_render` in which both captures
succeeded and the process step produced a non-null output (and such a render
is not a skip); and whenever the process step can only yield "no output", a
dirty render emits a skip and leaves `dirty` set, so the next tick retries. -/
theorem c5_dirty_flag_protocol :
    (∀ (fx : FxEnv) (t : Bool) (w h : Nat) (s : InstanceState),
      (video_tick fx t w h s).1.dirty = true)
    ∧ (∀ (nvidia_available : Bool) (d : denoising_provider) (s : InstanceState),
        (update nvidia_available d s).dirty = s.dirty)
    ∧ (∀ (s : InstanceState) (p : denoising_provider),
        (switch_provider s p).dirty = s.dirty)
    ∧ (∀ (load : LoadOutcome) (s : InstanceState) (spd : switch_provider_data_t),
        (task_switch_provider load s spd).state.dirty = s.dirty)
    ∧ (∀ (fx : FxEnv) (env : RenderEnv) (s : InstanceState),
        s.dirty = true → (video_render fx env s).state.dirty = false →
        env.capture1 = true ∧ env.capture2 = true
        ∧ (video_render fx env s).state.output ≠ none
        ∧ (video_render fx env s).result ≠ RenderResult.skip)
    ∧ (∀ (fx : FxEnv) (env : RenderEnv) (s : InstanceState),
        s.dirty = true → process_yields_none fx s = true →
        (video_render fx env s).result = RenderResult.skip
        ∧ (video_render fx env s).state.dirty = true) := by
  refine ⟨video_tick_dirty, update_dirty, switch_provider_dirty, task_state_dirty,
    ?_, render_yields_none_skip⟩
  intro fx env s hd h
  rcases video_render_dirty_cases fx env s with hc | ⟨h1, h2, _, h4, h5⟩
  · rw [hd] at hc
    exact absurd (h.symm.trans hc) (by decide)
  · exact ⟨h1, h2, h4, h5⟩

/-- Witness for C5 at concrete inputs: a tick sets `dirty`; a fully successful
render (NVIDIA provider loaded, identity-processing backend, both captures
succeeding) is the clearing case; a backend that returns null keeps `dirty`
set and skips. -/
theorem c5_dirty_flag_protocol_witness :
    ((video_tick fx_id true 4 3 init_state).1.dirty = true)
    ∧ ({ target := true, parent := true, width := 4, height := 3,
          capture1 := true, capture2 := true : RenderEnv }.capture1 = true
      ∧ { target := true, parent := true, width := 4, height := 3,
          capture1 := true, capture2 := true : RenderEnv }.capture2 = true
      ∧ (video_render fx_id
          { target := true, parent := true, width := 4, height := 3,
            capture1 := true, capture2 := true }
          { init_state with provider := denoising_provider.NVIDIA_DENOISING,
                            provider_ready := true, dirty := true,
                            nvidia_fx := true }).state.output ≠ none
      ∧ (video_render fx_id
          { target := true, parent := true, width := 4, height := 3,
            capture1 := true, capture2 := true }
          { init_state with provider := denoising_provider.NVIDIA_DENOISING,
                            provider_ready := true, dirty := true,
                            nvidia_fx := true }).result ≠ RenderResult.skip)
    ∧ ((video_render fx_none
          { target := true, parent := true, width := 4, height := 3,
            capture1 := true, capture2 := true }
          { init_state with provider := denoising_provider.NVIDIA_DENOISING,
                            provider_ready := true, dirty := true,
                            nvidia_fx := true }).result = RenderResult.skip
      ∧ (video_render fx_none
          { target := true, parent := true, width := 4, height := 3,
            capture1 := true, capture2 := true }
          { init_state with provider := denoising_provider.NVIDIA_DENOISING,
                            provider_ready := true, dirty := true,
                            nvidia_fx := true }).state.dirty = true) :=
  ⟨c5_dirty_flag_protocol.1 fx_id true 4 3 init_state,
   c5_dirty_flag_protocol.2.2.2.2.1 fx_id
     { target := true, parent := true, width := 4, height := 3,
       capture1 := true, capture2 := true }
     { init_state with provider := denoising_provider.NVIDIA_DENOISING,
                       provider_ready := true, dirty := true, nvidia_fx := true }
     rfl (by decide),
   c5_dirty_flag_protocol.2.2.2.2.2 fx_none
     { target := true, parent := true, width := 4, height := 3,
       capture1 := true, capture2 := true }
     { init_state with provider := denoising_provider.NVIDIA_DENOISING,
                       provider_ready := true, dirty := true, nvidia_fx := true }
     rfl (by decide)⟩

/-! Claim C6 -/

/-- Claim C6, counterexample to "no error logging beyond the initial log": on
a machine with no available provider, after `update(Automatic)` stored the
sentinel, the enqueued switch task ran (its load `switch` hits the default
branch and sets `provider_ready = true`), and one tick set `dirty`, the next
render reaches the process step, gets no output, and emits one error line —
and this repeats for every subsequent tick+render cycle, so an additional
error line IS emitted per render. -/
theorem c6_counterexample :
    (video_render fx_id
        { target := true, parent := true, width := 16, height := 9,
          capture1 := true, capture2 := true }
        (run false fx_id init_state
          [Event.updateE denoising_provider.AUTOMATIC,
           Event.taskE { provider := denoising_provider.INVALID } LoadOutcome.ok,
           Event.tickE true 16 9])).logs.countP LogEntry.isError = 1
    ∧ (video_render fx_id
        { target := true, parent := true, width := 16, height := 9,
          capture1 := true, capture2 := true }
        (run false fx_id init_state
          [Event.updateE denoising_provider.AUTOMATIC,
           Event.taskE { provider := denoising_provider.INVALID } LoadOutcome.ok,
           Event.tickE true 16 9])).result = RenderResult.skip := by
  decide

theorem render_phase_size_auto (fx : FxEnv) (w h : Nat) (s : InstanceState)
    (hp : s.provider = denoising_provider.AUTOMATIC) :
    render_phase_size fx w h s = ({ s with size := (w, h) }, 0) := by
  unfold render_phase_size
  rw [hp]

theorem render_phase_process_auto (fx : FxEnv) (s : InstanceState)
    (hp : s.provider = denoising_provider.AUTOMATIC) :
    render_phase_process fx s = ({ s with output := none }, 0) := by
  unfold render_phase_process
  rw [hp]

theorem render_auto_skip (fx : FxEnv) (env : RenderEnv) (s : InstanceState)
    (hp : s.provider = denoising_provider.AUTOMATIC) (hd : s.dirty = true) :
    (video_render fx env s).result = RenderResult.skip
    ∧ (video_render fx env s).state.provider = denoising_provider.AUTOMATIC
    ∧ (video_render fx env s).state.dirty = true := by
  unfold video_render
  by_cases hg : s.provider_ready = false ∨ (env.target = false ∧ env.parent = false) ∨
      env.width = 0 ∨ env.height = 0
  · rw [if_pos hg]
    exact ⟨rfl, hp, hd⟩
  · rw [if_neg hg, if_pos hd, render_phase_size_auto fx env.width env.height s hp]
    unfold render_dirty_cycle
    by_cases hc1 : env.capture1 = true
    · rw [if_pos hc1]
      dsimp only
      rw [render_phase_process_auto fx { s with size := (env.width, env.height) } hp]
      unfold render_after_capture1
      exact ⟨rfl, hp, hd⟩
    · rw [if_neg hc1]
      exact ⟨rfl, hp, hd⟩

theorem render_auto_error_log (fx : FxEnv) (env : RenderEnv) (s : InstanceState)
    (hp : s.provider = denoising_provider.AUTOMATIC) (hd : s.dirty = true)
    (hr : s.provider_ready = true) (ht : env.target = true ∨ env.parent = true)
    (hw : env.width ≠ 0) (hh : env.height ≠ 0) (hc1 : env.capture1 = true) :
    (video_render fx env s).logs
      = [LogEntry.errorNoResult denoising_provider.AUTOMATIC] := by
  have hg : ¬ (s.provider_ready = false ∨ (env.target = false ∧ env.parent = false) ∨
      env.width = 0 ∨ env.height = 0) := by
    rcases ht with h | h <;> simp [hr, h, hw, hh]
  unfold video_render
  rw [if_neg hg, if_pos hd, render_phase_size_auto fx env.width env.height s hp]
  unfold render_dirty_cycle
  rw [if_pos hc1]
  dsimp only
  rw [render_phase_process_auto fx { s with size := (env.width, env.height) } hp]
  unfold render_after_capture1
  show [LogEntry.errorNoResult s.provider]
      = [LogEntry.errorNoResult denoising_provider.AUTOMATIC]
  rw [hp]

/-- Claim C6 as amended: with zero available providers, resolution indeed
returns the `AUTOMATIC` sentinel, and once it has been stored as the active
provider every render invocation skips (pass-through) with the state staying
in that mode — but, contrary to the claim, error logging is per render, not
only initial: every render performed while `provider_ready` is true and
`dirty` is set (which the preceding tick guarantees) with a live target,
non-zero size, and a successful capture emits one "provider did not return a
result" error line. -/
theorem c6_sentinel_renders_skip_but_log_errors :
    find_ideal_provider false = denoising_provider.AUTOMATIC
    ∧ (∀ (fx : FxEnv) (env : RenderEnv) (s : InstanceState),
        s.provider = denoising_provider.AUTOMATIC → s.dirty = true →
        (video_render fx env s).result = RenderResult.skip
        ∧ (video_render fx env s).state.provider = denoising_provider.AUTOMATIC
        ∧ (video_render fx env s).state.dirty = true)
    ∧ (∀ (fx : FxEnv) (env : RenderEnv) (s : InstanceState),
        s.provider = denoising_provider.AUTOMATIC → s.dirty = true →
        s.provider_ready = true → (env.target = true ∨ env.parent = true) →
        env.width ≠ 0 → env.height ≠ 0 → env.capture1 = true →
        (video_render fx env s).logs
          = [LogEntry.errorNoResult denoising_provider.AUTOMATIC]) :=
  ⟨rfl, render_auto_skip, render_auto_error_log⟩

/-- Witness for C6's amended theorem at a concrete input. -/
theorem c6_sentinel_renders_skip_but_log_errors_witness :
    (video_render fx_id
        { target := true, parent := true, width := 16, height := 9,
          capture1 := true, capture2 := true }
        { init_state with provider := denoising_provider.AUTOMATIC,
                          provider_ready := true, dirty := true }).result
        = RenderResult.skip
    ∧ (video_render fx_id
        { target := true, parent := true, width := 16, height := 9,
          capture1 := true, capture2 := true }
        { init_state with provider := denoising_provider.AUTOMATIC,
                          provider_ready := true, dirty := true }).logs
        = [LogEntry.errorNoResult denoising_provider.AUTOMATIC] :=
  ⟨(c6_sentinel_renders_skip_but_log_errors.2.1 fx_id
      { target := true, parent := true, width := 16, height := 9,
        capture1 := true, capture2 := true }
      { init_state with provider := denoising_provider.AUTOMATIC,
                        provider_ready := true, dirty := true } rfl rfl).1,
   c6_sentinel_renders_skip_but_log_errors.2.2 fx_id
     { target := true, parent := true, width := 16, height := 9,
       capture1 := true, capture2 := true }
     { init_state with provider := denoising_provider.AUTOMATIC,
                       provider_ready := true, dirty := true }
     rfl rfl rfl (Or.inl rfl) (by decide) (by decide) rfl⟩

end Denoising
